import Mathlib

/-!
Shallow embedding of the RAG chatbot's tool layer and response orchestrator:
`backend/search_tools.py` (CourseSearchTool, CourseOutlineTool, ToolManager)
and `backend/ai_generator.py` (AIGenerator.generate_response and
AIGenerator._handle_tool_execution).  External collaborators (the vector
store and the chat-completion oracle) are modelled as function-valued
parameters; Python mutation is modelled by explicit state passing.
-/

namespace RagChat

/-- Python truthiness of an optional string: `if s:` is `True` exactly when the
value is present and non-empty. -/
def optStrTruthy : Option String → Bool
  | none => false
  | some s => !s.isEmpty

/-- Python truthiness of an optional integer: `if n:` is `True` exactly when the
value is present and non-zero. -/
def optIntTruthy : Option Int → Bool
  | none => false
  | some n => n != 0

/-- Python `sep.join(parts)`. -/
def joinSep (sep : String) : List String → String
  | [] => ""
  | [x] => x
  | x :: xs => x ++ sep ++ joinSep sep xs

/-- Whether `sub` occurs as a contiguous sublist of `l` (helper for the
substring test). -/
def subOccurs (sub : List Char) : List Char → Bool
  | [] => sub.isEmpty
  | c :: rest => sub.isPrefixOf (c :: rest) || subOccurs sub rest

/-- Whether the string `sub` occurs as a substring of `s` (Python `sub in s`). -/
def strContains (s sub : String) : Bool :=
  subOccurs sub.data s.data

/-! ## Data model of the retrieval backend (external collaborator)

The vector store lives in `vector_store.py`, outside this repository snapshot;
the spec describes it as a black-box retrieval oracle exposing `search`,
`_resolve_course_name`, `get_lesson_link` and a metadata-by-id lookup. -/

/-- One metadata mapping of a search hit. Fields are optional because the code
reads them with `meta.get('course_title', 'unknown')` and
`meta.get('lesson_number')`. -/
structure Meta where
  course_title : Option String
  lesson_number : Option Int
  deriving Repr, DecidableEq, Inhabited

/-- A `SearchResults` value: parallel sequences of documents and metadata plus
an optional error string. -/
structure SearchResults where
  documents : List String
  metadata : List Meta
  error : Option String
  deriving Repr, DecidableEq, Inhabited

/-- Modelled from the spec: `SearchResults.is_empty` is defined in
`vector_store.py`, which is not part of this repository snapshot.  The spec's
data model describes the result set as ordered parallel sequences of text
chunks and metadata, so emptiness is the absence of documents. -/
def SearchResults.is_empty (r : SearchResults) : Bool :=
  r.documents.isEmpty

/-- One lesson entry of the serialized lessons list, read with
`lesson.get('lesson_number')`, `lesson.get('lesson_title', 'Untitled')` and
`lesson.get('lesson_link')`. -/
structure Lesson where
  lesson_number : Option Int
  lesson_title : Option String
  lesson_link : Option String
  deriving Repr, DecidableEq, Inhabited

/-- The metadata mapping stored in the course catalog for one course. -/
structure CatalogMeta where
  title : Option String
  instructor : Option String
  course_link : Option String
  lessons_json : Option String
  deriving Repr, DecidableEq, Inhabited

/-- Result of `course_catalog.get(ids=[...])`: a mapping whose `metadatas`
entry is a list of metadata mappings (an absent or falsy entry is modelled as
the empty list). -/
structure CatalogGetResult where
  metadatas : List CatalogMeta
  deriving Repr, DecidableEq, Inhabited

/-- The external vector store, as the functions this layer calls on it. -/
structure VectorStore where
  search : String → Option String → Option Int → SearchResults
  get_lesson_link : String → Int → Option String
  resolve_course_name : String → Option String
  course_catalog_get : String → Option CatalogGetResult

/-! ## CourseSearchTool (`search_tools.py` lines 20-134) -/

/-- State of a `CourseSearchTool` instance: its vector store and the
`last_sources` field initialised to `[]` and overwritten by
`_format_results`. -/
structure CourseSearchTool where
  store : VectorStore
  last_sources : List String

/-- The lesson link looked up inside the `_format_results` loop: it is fetched
only when `lesson_num is not None`. -/
def lessonLinkOf (store : VectorStore) (course_title : String)
    (lesson_num : Option Int) : Option String :=
  match lesson_num with
  | some n => store.get_lesson_link course_title n
  | none => none

/-- The context header built for one hit in `_format_results`: both branches
open with `[<course title>`, append ` - Lesson <n>` when a lesson number is
present, and close with `](<link>)` when the looked-up lesson link is truthy,
else with `]`. -/
def hitHeader (store : VectorStore) (meta : Meta) : String :=
  let course_title := meta.course_title.getD "unknown"
  let lesson_num := meta.lesson_number
  let lesson_link := lessonLinkOf store course_title lesson_num
  if optStrTruthy lesson_link then
    let header := "[" ++ course_title
    let header := match lesson_num with
      | some n => header ++ " - Lesson " ++ toString n
      | none => header
    header ++ "](" ++ lesson_link.getD "" ++ ")"
  else
    let header := "[" ++ course_title
    let header := match lesson_num with
      | some n => header ++ " - Lesson " ++ toString n
      | none => header
    header ++ "]"

/-- The UI source tracked for one hit in `_format_results`: the bracketed link
form when the looked-up lesson link is truthy, otherwise the bare
`<course title> - Lesson <n>` text (no brackets). -/
def hitSource (store : VectorStore) (meta : Meta) : String :=
  let course_title := meta.course_title.getD "unknown"
  let lesson_num := meta.lesson_number
  let lesson_link := lessonLinkOf store course_title lesson_num
  if optStrTruthy lesson_link then
    let source := "[" ++ course_title
    let source := match lesson_num with
      | some n => source ++ " - Lesson " ++ toString n
      | none => source
    source ++ "](" ++ lesson_link.getD "" ++ ")"
  else
    let source := course_title
    let source := match lesson_num with
      | some n => source ++ " - Lesson " ++ toString n
      | none => source
    source

/-- The loop of `_format_results` over `zip(results.documents,
results.metadata)`, building the formatted blocks and the sources list in
step. -/
def formatLoop (store : VectorStore) :
    List (String × Meta) → List String × List String
  | [] => ([], [])
  | (doc, meta) :: rest =>
    let r := formatLoop store rest
    (((hitHeader store meta) ++ "\n" ++ doc) :: r.1,
     hitSource store meta :: r.2)

/-- `CourseSearchTool._format_results`: returns the blocks joined by blank
lines and the new `last_sources` value it stores. -/
def CourseSearchTool.format_results (t : CourseSearchTool)
    (results : SearchResults) : String × CourseSearchTool :=
  let r := formatLoop t.store (results.documents.zip results.metadata)
  (joinSep "\n\n" r.1, { t with last_sources := r.2 })

/-- `CourseSearchTool.execute`: search the store, return a truthy error string
verbatim, describe the applied filters on an empty result set, otherwise
format the hits (which overwrites `last_sources`). -/
def CourseSearchTool.execute (t : CourseSearchTool) (query : String)
    (course_name : Option String) (lesson_number : Option Int) :
    String × CourseSearchTool :=
  let results := t.store.search query course_name lesson_number
  if optStrTruthy results.error then
    (results.error.getD "", t)
  else if results.is_empty then
    let filter_info := ""
    let filter_info := if optStrTruthy course_name then
        filter_info ++ " in course '" ++ course_name.getD "" ++ "'"
      else filter_info
    let filter_info := if optIntTruthy lesson_number then
        filter_info ++ " in lesson " ++ toString (lesson_number.getD 0)
      else filter_info
    ("No relevant content found" ++ filter_info ++ ".", t)
  else
    t.format_results results

/-! ## CourseOutlineTool (`search_tools.py` lines 137-256) -/

/-- Display form of an optional value interpolated into a Python f-string:
`None` renders as the literal `None`. -/
def pyShowOptInt : Option Int → String
  | some n => toString n
  | none => "None"

/-- One rendered lesson line of `_format_course_outline`: the link form when
the lesson's own link is truthy, the plain form otherwise. -/
def lessonLine (lesson : Lesson) : String :=
  let lesson_num := pyShowOptInt lesson.lesson_number
  let lesson_title := lesson.lesson_title.getD "Untitled"
  match lesson.lesson_link with
  | some link =>
    if !link.isEmpty then
      "**" ++ lesson_num ++ ".** 📖 **[" ++ lesson_title ++ "](" ++ link ++ ")**"
    else
      "**" ++ lesson_num ++ ".** 📖 **" ++ lesson_title ++ "**"
  | none => "**" ++ lesson_num ++ ".** 📖 **" ++ lesson_title ++ "**"

/-- The list of lines appended by `_format_course_outline`, in order; the
result is their `"\n".join`.  `sorted(lessons, key=...)` is a stable sort on
the lesson number read with default `0`. -/
def formatOutlineLines (title : String) (instructor : String)
    (course_link : Option String) (lessons : List Lesson) : List String :=
  ["---", ""]
  ++ [if optStrTruthy course_link then
        "# 🎓 **[" ++ title ++ "](" ++ course_link.getD "" ++ ")**"
      else
        "# 🎓 **" ++ title ++ "**"]
  ++ [""]
  ++ (if !instructor.isEmpty then
        ["👨‍🏫 **Instructor:** " ++ instructor, ""]
      else [])
  ++ (if optStrTruthy course_link then
        ["🔗 **Course Link:** [Access Course](" ++ course_link.getD "" ++ ")", ""]
      else [])
  ++ ["---", ""]
  ++ (if !lessons.isEmpty then
        ["## 📚 **Course Lessons**", ""]
        ++ (lessons.mergeSort (fun a b =>
              decide ((a.lesson_number.getD 0) ≤ (b.lesson_number.getD 0)))
           ).map lessonLine
      else
        ["## 📚 **Course Lessons**", "",
         "ℹ️ No lessons available for this course."])
  ++ ["", "---"]

/-- `CourseOutlineTool._format_course_outline`. -/
def format_course_outline (title : String) (instructor : String)
    (course_link : Option String) (lessons : List Lesson) : String :=
  joinSep "\n" (formatOutlineLines title instructor course_link lessons)

/-- `CourseOutlineTool.execute`.  `json.loads` is external; it is passed in as
a function returning either the parsed lessons list or the message of the
exception it raised (which the `except` clause converts to an error string). -/
def CourseOutlineTool.execute (store : VectorStore)
    (json_loads : String → Except String (List Lesson))
    (course_name : String) : String :=
  let exact_course_title := store.resolve_course_name course_name
  if !optStrTruthy exact_course_title then
    "No course found matching '" ++ course_name ++ "'"
  else
    let exact_title := exact_course_title.getD ""
    match store.course_catalog_get exact_title with
    | none => "Course metadata not found for '" ++ exact_title ++ "'"
    | some results =>
      match results.metadatas with
      | [] => "Course metadata not found for '" ++ exact_title ++ "'"
      | metadata :: _ =>
        let course_title := metadata.title.getD exact_title
        let instructor := metadata.instructor.getD "Unknown"
        let course_link := metadata.course_link
        let lessons_json := metadata.lessons_json
        if optStrTruthy lessons_json then
          match json_loads (lessons_json.getD "") with
          | Except.error e => "Error retrieving course outline: " ++ e
          | Except.ok lessons =>
            format_course_outline course_title instructor course_link lessons
        else
          format_course_outline course_title instructor course_link []

/-! ## ToolManager (`search_tools.py` lines 259-301)

Registered tools are heterogeneous Python objects; a tool is modelled by its
observable surface: its definition, whether it has a `last_sources` attribute,
the current value of that attribute, and its `execute` method (a function of
the keyword arguments and of the tool's current `last_sources`, returning the
result string and the new `last_sources`). -/

/-- Keyword-argument mapping passed to `execute` (values abstracted as
strings). -/
abbrev Kwargs := List (String × String)

/-- The nested function part of an OpenAI-format tool definition; `name` is
read with `.get("name")` so it may be absent. -/
structure FunctionDef where
  name : Option String
  description : String
  deriving Repr, DecidableEq, Inhabited

/-- A tool definition: either the OpenAI function format (a `function` entry
is present) or a flat format with a top-level `name` entry. -/
structure ToolDef where
  function : Option FunctionDef
  name : Option String
  deriving Repr, DecidableEq, Inhabited

/-- A registered tool object, by its observable surface. -/
structure RTool where
  defn : ToolDef
  trackSources : Bool
  sources : List String
  exec : Kwargs → List String → String × List String

/-- The name `register_tool` extracts from a tool definition:
`tool_def["function"].get("name")` when a `function` entry is present, else
`tool_def.get("name")`. -/
def toolDefName (d : ToolDef) : Option String :=
  match d.function with
  | some f => f.name
  | none => d.name

/-- The `ToolManager` state: its `tools` dict as an insertion-ordered
association list. -/
structure ToolManager where
  tools : List (String × RTool)

/-- Python dict assignment `d[k] = v`: replace in place when the key exists,
append otherwise. -/
def dictInsert (l : List (String × RTool)) (k : String) (v : RTool) :
    List (String × RTool) :=
  if l.any (fun p => p.1 == k) then
    l.map (fun p => if p.1 == k then (k, v) else p)
  else
    l ++ [(k, v)]

/-- Python dict lookup: first (and, for a dict, only) entry with the key. -/
def ToolManager.find (m : ToolManager) (name : String) : Option RTool :=
  (m.tools.find? (fun p => p.1 == name)).map (fun p => p.2)

/-- `ToolManager.register_tool`: extract the name from the definition, raise
`ValueError` (modelled as `Except.error`) when it is falsy, else store by
name. -/
def ToolManager.register_tool (m : ToolManager) (t : RTool) :
    Except String ToolManager :=
  let tool_name := toolDefName t.defn
  if !optStrTruthy tool_name then
    Except.error "Tool must have a 'name' in its definition"
  else
    Except.ok ⟨dictInsert m.tools (tool_name.getD "") t⟩

/-- `ToolManager.get_tool_definitions`. -/
def ToolManager.get_tool_definitions (m : ToolManager) : List ToolDef :=
  m.tools.map (fun p => p.2.defn)

/-- `ToolManager.execute_tool`: the not-found string for an unregistered name,
otherwise the tool's own `execute` result; the executed tool's state update is
reflected in the manager. -/
def ToolManager.execute_tool (m : ToolManager) (tool_name : String)
    (kwargs : Kwargs) : String × ToolManager :=
  match m.find tool_name with
  | none => ("Tool '" ++ tool_name ++ "' not found", m)
  | some t =>
    let r := t.exec kwargs t.sources
    (r.1, ⟨m.tools.map (fun p =>
        if p.1 == tool_name then (p.1, { p.2 with sources := r.2 }) else p)⟩)

/-- `ToolManager.get_last_sources`: the `last_sources` of the first registered
tool that has the attribute with a truthy (non-empty) value; `[]` when none
does. -/
def ToolManager.get_last_sources (m : ToolManager) : List String :=
  match m.tools.find? (fun p => p.2.trackSources && !p.2.sources.isEmpty) with
  | some p => p.2.sources
  | none => []

/-- `ToolManager.reset_sources`: set `last_sources = []` on every tool that
has the attribute. -/
def ToolManager.reset_sources (m : ToolManager) : ToolManager :=
  ⟨m.tools.map (fun p =>
    if p.2.trackSources then (p.1, { p.2 with sources := [] }) else p)⟩

/-! ## AIGenerator (`ai_generator.py`)

The completion oracle (`self.client.chat.completions.create`) is external; it
is modelled as a function from the API parameters to the first choice of the
returned completion.  `generate_response` additionally returns the ordered
list of API parameter values it sent to the oracle, and the tool manager
state after any tool executions. -/

/-- One requested tool call of an oracle response: `{id, type, function:
{name, arguments}}`, with `arguments` a JSON-encoded string. -/
structure ToolCallFunction where
  name : String
  arguments : String
  deriving Repr, DecidableEq, Inhabited

/-- A tool call entry of the oracle's message. -/
structure ToolCall where
  id : String
  type : String
  function : ToolCallFunction
  deriving Repr, DecidableEq, Inhabited

/-- The message of the oracle's first choice. -/
structure OracleMessage where
  content : Option String
  tool_calls : List ToolCall
  deriving Repr, DecidableEq, Inhabited

/-- The first choice of an oracle completion: its finish reason and its
message. -/
structure OracleResponse where
  finish_reason : String
  message : OracleMessage
  deriving Repr, DecidableEq, Inhabited

/-- A conversation message dict as built by `ai_generator.py`: the `system`,
`user`, `assistant` (with `tool_calls`) and `tool` (with `tool_call_id`)
shapes. -/
inductive ChatMessage where
  | system (content : String)
  | user (content : String)
  | assistant (content : Option String) (tool_calls : List ToolCall)
  | tool (content : String) (tool_call_id : String)
  deriving Repr, DecidableEq, Inhabited

/-- The keyword arguments of one oracle call: the pre-built base parameters
(model, temperature 0, max tokens 800) plus messages and the optional `tools`
and `tool_choice` entries. -/
structure ApiParams where
  model : String
  temperature : Nat
  max_tokens : Nat
  messages : List ChatMessage
  tools : Option (List ToolDef)
  tool_choice : Option String
  deriving Repr, DecidableEq, Inhabited

/-- Python truthiness of the optional `tools` argument: `if tools:` is true
exactly when a non-empty list was passed. -/
def optToolsTruthy : Option (List ToolDef) → Bool
  | none => false
  | some l => !l.isEmpty

/-- `AIGenerator.SYSTEM_PROMPT` (static). -/
def SYSTEM_PROMPT : String :=
  " You are an AI assistant specialized in course materials and educational content with access to comprehensive tools for course information.\n\nAvailable Tools:\n1. **Course Content Search Tool**: For questions about specific course content, lessons, or detailed educational materials\n2. **Course Outline Tool**: For questions about course structure, lesson lists, course overviews, or complete course outlines\n\nTool Usage Guidelines:\n- **Course outline/structure questions**: Use the course outline tool to get the complete course structure with all lessons\n- **Specific content questions**: Use the content search tool for detailed information within courses\n- **One tool call per query maximum**\n- Synthesize tool results into accurate, fact-based responses\n- If search yields no results, state this clearly without offering alternatives\n\nResponse Protocol:\n- **General knowledge questions**: Answer using existing knowledge without using tools\n- **Course outline/structure questions**: Use the outline tool, then provide the complete course title, course link, and full lesson list with numbers and titles\n- **Course content questions**: Use the content search tool, then answer based on results\n- **No meta-commentary**:\n - Provide direct answers only — no reasoning process, tool explanations, or question-type analysis\n - Do not mention \"based on the search results\" or \"using the tool\"\n\nFor outline queries, ensure you return:\n- Course title (with clickable link if available)\n- Course instructor\n- Complete numbered list of all lessons with titles (and clickable links if available)\n\nAll responses must be:\n1. **Brief, Concise and focused** - Get to the point quickly\n2. **Educational** - Maintain instructional value\n3. **Clear** - Use accessible language\n4. **Example-supported** - Include relevant examples when they aid understanding\nProvide only the direct answer to what was asked.\n"

/-- An `AIGenerator` instance: the configured model, the external completion
oracle, and the external `json.loads` applied to a tool call's JSON-encoded
arguments (returning the keyword-argument mapping). -/
structure AIGenerator where
  model : String
  oracle : ApiParams → OracleResponse
  json_loads_args : String → Kwargs

/-- The messages list built at the top of `generate_response`: the system
prompt, the previous-conversation system message when the history argument is
truthy, then the user query. -/
def initial_messages (query : String) (conversation_history : Option String) :
    List ChatMessage :=
  let messages := [ChatMessage.system SYSTEM_PROMPT]
  let messages := if optStrTruthy conversation_history then
      messages ++ [ChatMessage.system
        ("Previous conversation:\n" ++ conversation_history.getD "")]
    else messages
  messages ++ [ChatMessage.user query]

/-- The parameters of the first oracle call: base parameters plus messages,
with `tools` and `tool_choice = "auto"` added only when the `tools` argument
is truthy. -/
def initial_api_params (g : AIGenerator) (query : String)
    (conversation_history : Option String) (tools : Option (List ToolDef)) :
    ApiParams :=
  { model := g.model, temperature := 0, max_tokens := 800,
    messages := initial_messages query conversation_history,
    tools := if optToolsTruthy tools then tools else none,
    tool_choice := if optToolsTruthy tools then some "auto" else none }

/-- The `for tool_call in ...tool_calls:` loop of `_handle_tool_execution`:
for each call whose `type` is `"function"`, parse its arguments, execute it on
the manager, and append a `tool` message carrying the result and the call's
id; other calls contribute nothing. -/
def runToolCalls (g : AIGenerator) (tm : ToolManager) :
    List ToolCall → List ChatMessage × ToolManager
  | [] => ([], tm)
  | tc :: rest =>
    if tc.type == "function" then
      let r := tm.execute_tool tc.function.name
        (g.json_loads_args tc.function.arguments)
      let rest' := runToolCalls g r.2 rest
      (ChatMessage.tool r.1 tc.id :: rest'.1, rest'.2)
    else runToolCalls g tm rest

/-- `AIGenerator._handle_tool_execution`: extend the messages with the
assistant tool-call message and the tool results, re-invoke the oracle with
the base parameters (no `tools` / `tool_choice` entries), and return the final
text content.  Also returns the list of oracle calls it made and the updated
manager. -/
def AIGenerator.handle_tool_execution (g : AIGenerator)
    (initial_response : OracleResponse) (base_params : ApiParams)
    (tm : ToolManager) : Option String × List ApiParams × ToolManager :=
  let messages := base_params.messages
  let messages := messages ++ [ChatMessage.assistant
    initial_response.message.content initial_response.message.tool_calls]
  let run := runToolCalls g tm initial_response.message.tool_calls
  let messages := messages ++ run.1
  let final_params : ApiParams :=
    { model := g.model, temperature := 0, max_tokens := 800,
      messages := messages, tools := none, tool_choice := none }
  let final_response := g.oracle final_params
  (final_response.message.content, [final_params], run.2)

/-- `AIGenerator.generate_response`: one oracle call, then, when the finish
reason is `"tool_calls"` and a tool manager was provided, the tool-execution
round; otherwise the first response's content is returned directly. -/
def AIGenerator.generate_response (g : AIGenerator) (query : String)
    (conversation_history : Option String) (tools : Option (List ToolDef))
    (tool_manager : Option ToolManager) :
    Option String × List ApiParams × Option ToolManager :=
  let api_params := initial_api_params g query conversation_history tools
  let response := g.oracle api_params
  match tool_manager, response.finish_reason == "tool_calls" with
  | some tm, true =>
    let r := g.handle_tool_execution response api_params tm
    (r.1, api_params :: r.2.1, some r.2.2)
  | _, _ => (response.message.content, [api_params], tool_manager)

/-! ## Helper lemmas about the registry dict -/

/-- Replacing every entry of a colliding key and then looking it up finds the
new value, provided some entry collides. -/
lemma find?_map_replace_self (k : String) (v : RTool) :
    ∀ l : List (String × RTool), l.any (fun p => p.1 == k) = true →
    (l.map (fun p => if p.1 == k then (k, v) else p)).find? (fun p => p.1 == k)
      = some (k, v) := by
  intro l
  induction l with
  | nil => intro h; simp at h
  | cons p rest ih =>
    intro h
    by_cases hp : p.1 = k
    · simp [List.find?_cons_of_pos, hp]
    · have hp' : (p.1 == k) = false := beq_eq_false_iff_ne.mpr hp
      simp only [List.any_cons, hp', Bool.false_or] at h
      simp only [List.map_cons, hp', Bool.false_eq_true, if_false]
      rw [List.find?_cons_of_neg _ (by simp [hp'])]
      exact ih h

/-- Replacing every entry of key `k` leaves lookups of any other key
unchanged. -/
lemma find?_map_replace_ne (k k' : String) (v : RTool) (h : k' ≠ k) :
    ∀ l : List (String × RTool),
    (l.map (fun p => if p.1 == k then (k, v) else p)).find?
        (fun p => p.1 == k')
      = l.find? (fun p => p.1 == k') := by
  intro l
  induction l with
  | nil => simp
  | cons p rest ih =>
    by_cases hp : p.1 = k
    · have hk : (k == k') = false := beq_eq_false_iff_ne.mpr (Ne.symm h)
      have hp' : (p.1 == k') = false := by
        rw [hp]; exact hk
      simp only [List.map_cons, hp, beq_self_eq_true, if_true]
      rw [List.find?_cons_of_neg _ (by simp [hk]),
          List.find?_cons_of_neg _ (by simp [hp'])]
      exact ih
    · have hp' : (p.1 == k) = false := beq_eq_false_iff_ne.mpr hp
      simp only [List.map_cons, hp', Bool.false_eq_true, if_false]
      by_cases hq : p.1 = k'
      · rw [List.find?_cons_of_pos _ (by simp [hq]),
            List.find?_cons_of_pos _ (by simp [hq])]
      · have hq' : (p.1 == k') = false := beq_eq_false_iff_ne.mpr hq
        rw [List.find?_cons_of_neg _ (by simp [hq']),
            List.find?_cons_of_neg _ (by simp [hq'])]
        exact ih

/-- Looking up the inserted key after a dict assignment finds the new value. -/
lemma find?_dictInsert_self (l : List (String × RTool)) (k : String)
    (v : RTool) :
    (dictInsert l k v).find? (fun p => p.1 == k) = some (k, v) := by
  unfold dictInsert
  by_cases h : l.any (fun p => p.1 == k) = true
  · simp only [h, if_true]
    exact find?_map_replace_self k v l h
  · simp only [h, Bool.false_eq_true, if_false, List.find?_append]
    have hn : l.find? (fun p => p.1 == k) = none := by
      rw [List.find?_eq_none]
      intro x hx
      simp only [Bool.not_eq_true]
      exact Bool.not_eq_true _ ▸
        (List.any_eq_false.mp (Bool.eq_false_iff.mpr h)) x hx
    simp [hn, List.find?]

/-- Looking up any other key after a dict assignment is unchanged. -/
lemma find?_dictInsert_ne (l : List (String × RTool)) (k k' : String)
    (v : RTool) (h : k' ≠ k) :
    (dictInsert l k v).find? (fun p => p.1 == k')
      = l.find? (fun p => p.1 == k') := by
  unfold dictInsert
  by_cases ha : l.any (fun p => p.1 == k) = true
  · simp only [ha, if_true]
    exact find?_map_replace_ne k k' v h l
  · simp only [ha, Bool.false_eq_true, if_false, List.find?_append]
    have hk : (k == k') = false := beq_eq_false_iff_ne.mpr (Ne.symm h)
    cases hl : l.find? (fun p => p.1 == k') <;> simp [List.find?, hk]

/-! ## Concrete fixtures used by witnesses -/

/-- A trivial tool body for fixtures: returns "ok" and keeps its sources. -/
def sampleExec : Kwargs → List String → String × List String :=
  fun _ old => ("ok", old)

/-- The OpenAI-format definition of the course search tool, as
`CourseSearchTool.get_tool_definition` yields it (parameters elided). -/
def sampleSearchDef : ToolDef :=
  { function := some
      { name := some "search_course_content",
        description := "Search course materials with smart course name matching and lesson filtering" },
    name := none }

/-- A fixture tool registered under `search_course_content`. -/
def sampleTool : RTool :=
  { defn := sampleSearchDef, trackSources := true, sources := [],
    exec := sampleExec }

/-- A second fixture tool whose definition yields the same name. -/
def sampleTool2 : RTool :=
  { defn := { function := some
                { name := some "search_course_content",
                  description := "replacement" },
              name := none },
    trackSources := true, sources := ["stale"],
    exec := fun _ _ => ("two", []) }

/-- A fixture manager with the sample tool registered. -/
def sampleManager : ToolManager := ⟨[("search_course_content", sampleTool)]⟩

/-! ## Claim theorems: ToolManager -/

/-- C4: for every tool name not present in the registry and every parameter
mapping, `ToolManager.execute_tool` returns exactly `"Tool '<name>' not
found"` (it is a total function, so it never raises); for every registered
name it returns the registered tool's `execute` result unchanged. -/
theorem c4_execute_tool_contract (m : ToolManager) (tool_name : String)
    (kwargs : Kwargs) :
    (m.find tool_name = none →
      (m.execute_tool tool_name kwargs).1
        = "Tool '" ++ tool_name ++ "' not found") ∧
    (∀ t, m.find tool_name = some t →
      (m.execute_tool tool_name kwargs).1 = (t.exec kwargs t.sources).1) := by
  constructor
  · intro h
    simp [ToolManager.execute_tool, h]
  · intro t h
    simp [ToolManager.execute_tool, h]

/-- Witness for C4 at a concrete registry: the name `missing` is unregistered
and yields the not-found string; `search_course_content` is registered and
yields its tool's own result. -/
theorem c4_execute_tool_contract_witness :
    (ToolManager.find sampleManager "missing" = none ∧
      (ToolManager.execute_tool sampleManager "missing" []).1
        = "Tool 'missing' not found") ∧
    (ToolManager.find sampleManager "search_course_content" = some sampleTool ∧
      (ToolManager.execute_tool sampleManager "search_course_content" []).1
        = (sampleTool.exec [] sampleTool.sources).1) := by
  have h1 : ToolManager.find sampleManager "missing" = none := by rfl
  have h2 : ToolManager.find sampleManager "search_course_content"
      = some sampleTool := by rfl
  exact ⟨⟨h1, (c4_execute_tool_contract sampleManager "missing" []).1 h1⟩,
         ⟨h2, (c4_execute_tool_contract sampleManager "search_course_content"
                []).2 sampleTool h2⟩⟩

/-- C5: for every registry state and every two tools whose definitions yield
the same (truthy) name, registering the first then the second succeeds and
leaves the registry mapping that name to the second tool, with lookups of all
other names unchanged. -/
theorem c5_register_overwrites (m : ToolManager) (t₁ t₂ : RTool) (nm : String)
    (h₁ : toolDefName t₁.defn = some nm) (h₂ : toolDefName t₂.defn = some nm)
    (hnm : nm ≠ "") :
    ∃ m₁ m₂, m.register_tool t₁ = Except.ok m₁ ∧
      m₁.register_tool t₂ = Except.ok m₂ ∧
      m₂.find nm = some t₂ ∧
      ∀ k, k ≠ nm → m₂.find k = m.find k := by
  have hne : nm.isEmpty = false := by
    cases h : nm.isEmpty with
    | false => rfl
    | true => exact absurd ((String.isEmpty_iff nm).mp h) hnm
  refine ⟨⟨dictInsert m.tools nm t₁⟩,
          ⟨dictInsert (dictInsert m.tools nm t₁) nm t₂⟩, ?_, ?_, ?_, ?_⟩
  · simp [ToolManager.register_tool, h₁, optStrTruthy, hne]
  · simp [ToolManager.register_tool, h₂, optStrTruthy, hne]
  · show ToolManager.find _ nm = some t₂
    simp [ToolManager.find, find?_dictInsert_self]
  · intro k hk
    simp [ToolManager.find, find?_dictInsert_ne _ _ _ _ hk]

/-- Witness for C5: registering `sampleTool` then `sampleTool2` (both named
`search_course_content`) into the empty registry leaves the name mapped to
`sampleTool2`. -/
theorem c5_register_overwrites_witness :
    toolDefName sampleTool.defn = some "search_course_content" ∧
    toolDefName sampleTool2.defn = some "search_course_content" ∧
    "search_course_content" ≠ "" ∧
    (∃ m₁ m₂, ToolManager.register_tool ⟨[]⟩ sampleTool = Except.ok m₁ ∧
      m₁.register_tool sampleTool2 = Except.ok m₂ ∧
      m₂.find "search_course_content" = some sampleTool2 ∧
      ∀ k, k ≠ "search_course_content" →
        m₂.find k = ToolManager.find ⟨[]⟩ k) :=
  ⟨rfl, rfl, by decide,
   c5_register_overwrites ⟨[]⟩ sampleTool sampleTool2 "search_course_content"
     rfl rfl (by decide)⟩

/-- C6: for any prior registry state, `reset_sources` followed immediately by
`get_last_sources` returns the empty sequence, and `reset_sources` is
idempotent. -/
theorem c6_reset_sources_clears (m : ToolManager) :
    (m.reset_sources).get_last_sources = [] ∧
    (m.reset_sources).reset_sources = m.reset_sources := by
  constructor
  · unfold ToolManager.get_last_sources ToolManager.reset_sources
    have hnone : ((m.tools.map fun p =>
        if p.2.trackSources then (p.1, { p.2 with sources := [] }) else p
        ).find? fun p => p.2.trackSources && !p.2.sources.isEmpty) = none := by
      rw [List.find?_eq_none]
      intro x hx
      rcases List.mem_map.mp hx with ⟨p, _, rfl⟩
      by_cases ht : p.2.trackSources
      · simp [ht]
      · simp [ht]
    simp [hnone]
  · unfold ToolManager.reset_sources
    congr 1
    rw [List.map_map]
    apply List.map_congr_left
    intro p _
    by_cases ht : p.2.trackSources
    · simp [Function.comp, ht]
    · simp [Function.comp, ht]

/-- Updating the tool stored under one key (keeping the key) leaves lookups of
any other key unchanged. -/
lemma find?_map_update_ne (name k : String) (f : String × RTool → RTool)
    (h : k ≠ name) :
    ∀ l : List (String × RTool),
    (l.map (fun p => if p.1 == name then (p.1, f p) else p)).find?
        (fun p => p.1 == k)
      = l.find? (fun p => p.1 == k) := by
  intro l
  induction l with
  | nil => simp
  | cons p rest ih =>
    by_cases hp : p.1 = name
    · have hk : (p.1 == k) = false := by
        rw [hp]; exact beq_eq_false_iff_ne.mpr (Ne.symm h)
      simp only [List.map_cons, hp, beq_self_eq_true, if_true]
      rw [List.find?_cons_of_neg _ (by simp [hp, beq_eq_false_iff_ne.mpr (Ne.symm h)]),
          List.find?_cons_of_neg _ (by simp [hk])]
      exact ih
    · have hp' : (p.1 == name) = false := beq_eq_false_iff_ne.mpr hp
      simp only [List.map_cons, hp', Bool.false_eq_true, if_false]
      by_cases hq : p.1 = k
      · rw [List.find?_cons_of_pos _ (by simp [hq]),
            List.find?_cons_of_pos _ (by simp [hq])]
      · have hq' : (p.1 == k) = false := beq_eq_false_iff_ne.mpr hq
        rw [List.find?_cons_of_neg _ (by simp [hq']),
            List.find?_cons_of_neg _ (by simp [hq'])]
        exact ih

/-- C9: the `last_sources` state is only ever (a) left unchanged or entirely
overwritten with the freshly computed sources list by an execution of the
search tool — never appended to, (b) untouched at every other registry key by
`execute_tool`, and (c) set to the empty list at every sources-tracking tool
by `reset_sources` (other tools unchanged); the read-only operations
(`get_last_sources`, `get_tool_definitions`) are pure functions of the state
in this embedding and modify nothing. -/
theorem c9_last_sources_invariant :
    (∀ (store : VectorStore) (ls : List String) (q : String)
        (cn : Option String) (ln : Option Int),
      ((CourseSearchTool.execute ⟨store, ls⟩ q cn ln).2).last_sources = ls ∨
      ((CourseSearchTool.execute ⟨store, ls⟩ q cn ln).2).last_sources
        = (formatLoop store ((store.search q cn ln).documents.zip
            (store.search q cn ln).metadata)).2) ∧
    (∀ (m : ToolManager) (name : String) (kwargs : Kwargs) (k : String),
      k ≠ name →
      ((m.execute_tool name kwargs).2).find k = m.find k) ∧
    (∀ (m : ToolManager) (k : String),
      (m.reset_sources).find k
        = (m.find k).map (fun t =>
            if t.trackSources then { t with sources := [] } else t)) := by
  refine ⟨?_, ?_, ?_⟩
  · intro store ls q cn ln
    unfold CourseSearchTool.execute
    by_cases he : optStrTruthy (store.search q cn ln).error
    · simp [he]
    · by_cases hm : (store.search q cn ln).is_empty
      · simp [he, hm]
      · simp [he, hm, CourseSearchTool.format_results]
  · intro m name kwargs k hk
    unfold ToolManager.execute_tool
    cases hf : m.find name with
    | none => rfl
    | some t =>
      show ToolManager.find _ k = m.find k
      unfold ToolManager.find
      rw [find?_map_update_ne name k _ hk]
  · intro m k
    unfold ToolManager.reset_sources ToolManager.find
    rw [List.find?_map]
    have hpred : ((fun p => p.1 == k) ∘ (fun p : String × RTool =>
        if p.2.trackSources then (p.1, { p.2 with sources := [] }) else p))
        = (fun p : String × RTool => p.1 == k) := by
      funext p
      by_cases ht : p.2.trackSources <;> simp [Function.comp, ht]
    rw [hpred, Option.map_map, Option.map_map]
    cases hl : m.tools.find? (fun p => p.1 == k) with
    | none => rfl
    | some p =>
      simp only [Option.map_some]
      by_cases ht : p.2.trackSources <;> simp [Function.comp, ht]

/-- Witness for C9 at concrete inputs: executing the registered tool under one
name does not change the sources recorded under a different name. -/
theorem c9_last_sources_invariant_witness :
    "other" ≠ "search_course_content" ∧
    ((sampleManager.execute_tool "search_course_content" []).2).find "other"
      = sampleManager.find "other" :=
  ⟨by decide,
   c9_last_sources_invariant.2.1 sampleManager "search_course_content" []
     "other" (by decide)⟩

/-! ## Claim theorems: CourseSearchTool -/

/-- A fixture store whose search always returns an empty, error-free result
set and which resolves nothing. -/
def emptyStore : VectorStore :=
  { search := fun _ _ _ => { documents := [], metadata := [], error := none },
    get_lesson_link := fun _ _ => none,
    resolve_course_name := fun _ => none,
    course_catalog_get := fun _ => none }

/-- C3 (amended): on an empty, error-free result set the message is
`"No relevant content found"` followed by the course filter when the course
name is truthy and by the lesson filter when the lesson number is truthy
(present and non-zero), then a period; in particular `course_name = "X"` with
no lesson number yields exactly `"No relevant content found in course
'X'."`, and every supplied non-zero lesson number is named in the message. -/
theorem c3_empty_results_message (store : VectorStore) (q : String)
    (cn : Option String) (ln : Option Int) (ls : List String)
    (herr : optStrTruthy (store.search q cn ln).error = false)
    (hemp : (store.search q cn ln).documents = []) :
    (CourseSearchTool.execute ⟨store, ls⟩ q cn ln).1
      = "No relevant content found"
        ++ (if optStrTruthy cn then " in course '" ++ cn.getD "" ++ "'"
            else "")
        ++ (if optIntTruthy ln then " in lesson " ++ toString (ln.getD 0)
            else "")
        ++ "." ∧
    (cn = some "X" → ln = none →
      (CourseSearchTool.execute ⟨store, ls⟩ q cn ln).1
        = "No relevant content found in course 'X'.") ∧
    (∀ n : Int, ln = some n → n ≠ 0 →
      ∃ pre, (CourseSearchTool.execute ⟨store, ls⟩ q cn ln).1
        = pre ++ (" in lesson " ++ toString n) ++ ".") := by
  have hempb : (store.search q cn ln).is_empty = true := by
    simp [SearchResults.is_empty, hemp]
  have hmain : (CourseSearchTool.execute ⟨store, ls⟩ q cn ln).1
      = "No relevant content found"
        ++ (if optStrTruthy cn then " in course '" ++ cn.getD "" ++ "'"
            else "")
        ++ (if optIntTruthy ln then " in lesson " ++ toString (ln.getD 0)
            else "")
        ++ "." := by
    unfold CourseSearchTool.execute
    simp only [herr, Bool.false_eq_true, if_false, hempb, if_true]
    by_cases hc : optStrTruthy cn <;> by_cases hl : optIntTruthy ln <;>
      (simp [hc, hl, String.append_assoc]; try rfl)
  refine ⟨hmain, ?_, ?_⟩
  · intro hcn hln
    subst hcn; subst hln
    rw [hmain]
    rfl
  · intro n hln hn
    subst hln
    have hl : optIntTruthy (some n) = true := by
      simp [optIntTruthy]
      exact hn
    rw [hmain, hl]
    refine ⟨"No relevant content found"
      ++ (if optStrTruthy cn then " in course '" ++ cn.getD "" ++ "'"
          else ""), ?_⟩
    simp [String.append_assoc]

/-- Witness for C3 (amended) at a concrete store: scenario C's exact
message. -/
theorem c3_empty_results_message_witness :
    optStrTruthy (emptyStore.search "q" (some "X") none).error = false ∧
    (emptyStore.search "q" (some "X") none).documents = [] ∧
    (CourseSearchTool.execute ⟨emptyStore, []⟩ "q" (some "X") none).1
      = "No relevant content found in course 'X'." :=
  ⟨rfl, rfl,
   (c3_empty_results_message emptyStore "q" (some "X") none [] rfl rfl).2.1
     rfl rfl⟩

/-- Counterexample for C3 as stated: with `course_name = "X"` and the supplied
lesson number `0`, the message does not name the lesson filter at all (Python
`if lesson_number:` is false at `0`). -/
theorem c3_counterexample :
    (CourseSearchTool.execute ⟨emptyStore, []⟩ "q" (some "X") (some 0)).1
      = "No relevant content found in course 'X'." ∧
    strContains
      (CourseSearchTool.execute ⟨emptyStore, []⟩ "q" (some "X") (some 0)).1
      " in lesson" = false := by
  exact ⟨rfl, by decide⟩

/-- The `_format_results` loop is the pair of pointwise maps building the
header blocks and the sources. -/
lemma formatLoop_eq (store : VectorStore) :
    ∀ pairs : List (String × Meta),
    formatLoop store pairs
      = (pairs.map (fun dm => hitHeader store dm.2 ++ "\n" ++ dm.1),
         pairs.map (fun dm => hitSource store dm.2)) := by
  intro pairs
  induction pairs with
  | nil => rfl
  | cons dm rest ih =>
    cases dm with
    | mk doc meta => simp [formatLoop, ih]

/-- Per-hit relation between the rendered header and the tracked source: they
coincide when a lesson link resolves to a truthy value, and otherwise the
header is the source wrapped in brackets. -/
lemma hitHeader_hitSource_rel (store : VectorStore) (meta : Meta) :
    (optStrTruthy (lessonLinkOf store (meta.course_title.getD "unknown")
        meta.lesson_number) = true →
      hitSource store meta = hitHeader store meta) ∧
    (optStrTruthy (lessonLinkOf store (meta.course_title.getD "unknown")
        meta.lesson_number) = false →
      hitHeader store meta = "[" ++ hitSource store meta ++ "]") := by
  constructor <;> intro h <;> unfold hitHeader hitSource <;>
    cases hn : meta.lesson_number <;>
      rw [hn] at h <;> simp [h, hn, String.append_assoc]

/-- A fixture store with two hits for course `X`, lesson `2`, and no
resolvable lesson links. -/
def plainHitStore : VectorStore :=
  { search := fun _ _ _ =>
      { documents := ["chunk one", "chunk two"],
        metadata := [{ course_title := some "X", lesson_number := some 2 },
                     { course_title := some "X", lesson_number := some 2 }],
        error := none },
    get_lesson_link := fun _ _ => none,
    resolve_course_name := fun _ => none,
    course_catalog_get := fun _ => none }

/-- C2 (amended): on a non-empty, error-free result set with parallel
metadata, `execute` returns the hit blocks (header, newline, chunk) joined by
blank lines; `last_sources` afterwards holds exactly one entry per hit, in hit
order, where each entry equals the corresponding block's header when a lesson
link resolves and equals the header text without its enclosing brackets when
none does; a registry whose sources-bearing tool holds these sources returns
them unchanged from `get_last_sources`. -/
theorem c2_search_formatting (store : VectorStore) (q : String)
    (cn : Option String) (ln : Option Int) (ls : List String)
    (herr : optStrTruthy (store.search q cn ln).error = false)
    (hne : (store.search q cn ln).documents ≠ [])
    (hlen : (store.search q cn ln).documents.length
      = (store.search q cn ln).metadata.length) :
    (CourseSearchTool.execute ⟨store, ls⟩ q cn ln).1
      = joinSep "\n\n"
          (((store.search q cn ln).documents.zip
              (store.search q cn ln).metadata).map
            (fun dm => hitHeader store dm.2 ++ "\n" ++ dm.1)) ∧
    ((CourseSearchTool.execute ⟨store, ls⟩ q cn ln).2).last_sources
      = ((store.search q cn ln).documents.zip
          (store.search q cn ln).metadata).map
          (fun dm => hitSource store dm.2) ∧
    ((CourseSearchTool.execute ⟨store, ls⟩ q cn ln).2).last_sources.length
      = (store.search q cn ln).documents.length ∧
    (∀ meta : Meta,
      (optStrTruthy (lessonLinkOf store (meta.course_title.getD "unknown")
          meta.lesson_number) = true →
        hitSource store meta = hitHeader store meta) ∧
      (optStrTruthy (lessonLinkOf store (meta.course_title.getD "unknown")
          meta.lesson_number) = false →
        hitHeader store meta = "[" ++ hitSource store meta ++ "]")) ∧
    (∀ (nm : String) (rt : RTool), rt.trackSources = true →
      rt.sources
        = ((CourseSearchTool.execute ⟨store, ls⟩ q cn ln).2).last_sources →
      ToolManager.get_last_sources ⟨[(nm, rt)]⟩
        = ((CourseSearchTool.execute ⟨store, ls⟩ q cn ln).2).last_sources) := by
  have hempb : (store.search q cn ln).is_empty = false := by
    simp [SearchResults.is_empty, List.isEmpty_iff, hne]
  have hexec : CourseSearchTool.execute ⟨store, ls⟩ q cn ln
      = (joinSep "\n\n"
          (((store.search q cn ln).documents.zip
              (store.search q cn ln).metadata).map
            (fun dm => hitHeader store dm.2 ++ "\n" ++ dm.1)),
         ⟨store, ((store.search q cn ln).documents.zip
            (store.search q cn ln).metadata).map
            (fun dm => hitSource store dm.2)⟩) := by
    unfold CourseSearchTool.execute
    simp [herr, hempb, CourseSearchTool.format_results, formatLoop_eq]
  have hlenz : (((store.search q cn ln).documents.zip
      (store.search q cn ln).metadata).map
      (fun dm => hitSource store dm.2)).length
      = (store.search q cn ln).documents.length := by
    rw [List.length_map, List.length_zip, ← hlen, Nat.min_self]
  have hls : ((CourseSearchTool.execute ⟨store, ls⟩ q cn ln).2).last_sources
      = ((store.search q cn ln).documents.zip
          (store.search q cn ln).metadata).map
          (fun dm => hitSource store dm.2) := by
    rw [hexec]
  refine ⟨by rw [hexec], hls, ?_, ?_, ?_⟩
  · rw [hls]
    exact hlenz
  · intro meta
    exact hitHeader_hitSource_rel store meta
  · intro nm rt htrack hsrc
    have hdoclen : (store.search q cn ln).documents.length ≠ 0 := by
      intro h0
      exact hne (List.length_eq_zero.mp h0)
    have hnonempty : rt.sources ≠ [] := by
      rw [hsrc, hls]
      intro hcon
      apply hdoclen
      rw [← hlenz, hcon]
      rfl
    have hsf : rt.sources.isEmpty = false := by
      simp [List.isEmpty_iff, hnonempty]
    unfold ToolManager.get_last_sources
    rw [List.find?_cons_of_pos _ (by simp [htrack, hsf])]
    exact hsrc

/-- Witness for C2 (amended) at the two-hit fixture store. -/
theorem c2_search_formatting_witness :
    optStrTruthy (plainHitStore.search "q" none none).error = false ∧
    (plainHitStore.search "q" none none).documents ≠ [] ∧
    (plainHitStore.search "q" none none).documents.length
      = (plainHitStore.search "q" none none).metadata.length ∧
    ((CourseSearchTool.execute ⟨plainHitStore, []⟩ "q" none
        none).2).last_sources.length = 2 :=
  ⟨rfl, by decide, rfl,
   (c2_search_formatting plainHitStore "q" none none [] rfl (by decide)
     rfl).2.2.1⟩

/-- Counterexample for C2 as stated: with no resolvable lesson link the block
header is `[X - Lesson 2]` but the tracked source is the bare `X - Lesson 2`,
so the collected sources do not equal the headers. -/
theorem c2_counterexample :
    (CourseSearchTool.execute ⟨plainHitStore, []⟩ "q" none none).1
      = "[X - Lesson 2]\nchunk one\n\n[X - Lesson 2]\nchunk two" ∧
    ((CourseSearchTool.execute ⟨plainHitStore, []⟩ "q" none
        none).2).last_sources = ["X - Lesson 2", "X - Lesson 2"] ∧
    ("X - Lesson 2" : String) ≠ "[X - Lesson 2]" := by
  exact ⟨rfl, rfl, by decide⟩

/-! ## Claim theorems: CourseOutlineTool -/

/-- C7: whenever the backend's name resolution returns no match, the outline
tool returns exactly `"No course found matching '<name>'"` with the caller's
original input interpolated, independently of the catalog (so no metadata
lookup can influence the result). -/
theorem c7_outline_unresolved (store : VectorStore)
    (json_loads : String → Except String (List Lesson)) (course_name : String)
    (h : store.resolve_course_name course_name = none) :
    CourseOutlineTool.execute store json_loads course_name
      = "No course found matching '" ++ course_name ++ "'" ∧
    ∀ cat₁ cat₂ : String → Option CatalogGetResult,
      CourseOutlineTool.execute { store with course_catalog_get := cat₁ }
          json_loads course_name
        = CourseOutlineTool.execute { store with course_catalog_get := cat₂ }
            json_loads course_name := by
  have hmain : ∀ cat : String → Option CatalogGetResult,
      CourseOutlineTool.execute { store with course_catalog_get := cat }
          json_loads course_name
        = "No course found matching '" ++ course_name ++ "'" := by
    intro cat
    unfold CourseOutlineTool.execute
    simp [h, optStrTruthy]
  constructor
  · unfold CourseOutlineTool.execute
    simp [h, optStrTruthy]
  · intro cat₁ cat₂
    rw [hmain cat₁, hmain cat₂]

/-- Witness for C7: the fixture store resolves nothing, so the outline tool
answers the not-found string for the input `Intro`. -/
theorem c7_outline_unresolved_witness :
    emptyStore.resolve_course_name "Intro" = none ∧
    CourseOutlineTool.execute emptyStore (fun _ => Except.ok []) "Intro"
      = "No course found matching 'Intro'" :=
  ⟨rfl,
   (c7_outline_unresolved emptyStore (fun _ => Except.ok []) "Intro" rfl).1⟩

/-- Any member of a line list occurs inside its separator join. -/
lemma joinSep_mem_decomp (sep : String) :
    ∀ (l : List String) (x : String), x ∈ l →
    ∃ p q, joinSep sep l = p ++ x ++ q := by
  intro l
  induction l with
  | nil => intro x hx; cases hx
  | cons a rest ih =>
    intro x hx
    cases rest with
    | nil =>
      have hxa : x = a := List.mem_singleton.mp hx
      subst hxa
      exact ⟨"", "", by simp [joinSep, String.append_empty,
        String.empty_append]⟩
    | cons b rest' =>
      rcases List.mem_cons.mp hx with hxa | hx'
      · subst hxa
        refine ⟨"", sep ++ joinSep sep (b :: rest'), ?_⟩
        show joinSep sep (x :: b :: rest') = "" ++ x ++ (sep ++ _)
        simp [joinSep, String.append_assoc, String.empty_append]
      · rcases ih x hx' with ⟨p, q, hpq⟩
        refine ⟨a ++ sep ++ p, q, ?_⟩
        show joinSep sep (a :: b :: rest') = a ++ sep ++ p ++ x ++ q
        simp [joinSep, hpq, String.append_assoc]

/-- C8: formatting a course whose lessons list is empty always renders the
no-lessons notice — the notice line is among the rendered lines, and the
joined output contains it — whether or not a course link is present (the
formatter is a total function, so it never raises). -/
theorem c8_outline_no_lessons (title instructor : String)
    (course_link : Option String) :
    "ℹ️ No lessons available for this course."
      ∈ formatOutlineLines title instructor course_link [] ∧
    ∃ p q, format_course_outline title instructor course_link []
      = p ++ "ℹ️ No lessons available for this course." ++ q := by
  have hmem : "ℹ️ No lessons available for this course."
      ∈ formatOutlineLines title instructor course_link [] := by
    by_cases hi : instructor.isEmpty <;>
      by_cases hc : optStrTruthy course_link <;>
        simp [formatOutlineLines, hi, hc]
  exact ⟨hmem, joinSep_mem_decomp "\n" _ _ hmem⟩

/-! ## Claim theorems: AIGenerator -/

/-- The tool-execution loop produces exactly one `tool` message per requested
tool call whose type is `"function"`, in order, each tagged with that call's
identifier. -/
lemma runToolCalls_forall₂ (g : AIGenerator) :
    ∀ (tcs : List ToolCall) (tm : ToolManager),
    List.Forall₂ (fun (msg : ChatMessage) (tc : ToolCall) =>
        ∃ c, msg = ChatMessage.tool c tc.id)
      (runToolCalls g tm tcs).1
      (tcs.filter (fun tc => tc.type == "function")) := by
  intro tcs
  induction tcs with
  | nil => intro tm; simp [runToolCalls]
  | cons tc rest ih =>
    intro tm
    cases h : tc.type == "function" with
    | true =>
      simp only [runToolCalls, h, if_true, List.filter_cons, List.cons.injEq]
      exact List.Forall₂.cons ⟨_, rfl⟩ (ih _)
    | false =>
      simp only [runToolCalls, h, Bool.false_eq_true, if_false,
        List.filter_cons]
      exact ih tm

/-- C10: when the first oracle response's finish reason is `tool_calls` but no
tool manager is provided, no second oracle call is made and no tool runs: the
first response's (possibly null) message content is returned directly. -/
theorem c10_no_manager_direct_return (g : AIGenerator) (query : String)
    (hist : Option String) (tools : Option (List ToolDef))
    (_hfin : (g.oracle (initial_api_params g query hist tools)).finish_reason
      = "tool_calls") :
    g.generate_response query hist tools none
      = ((g.oracle (initial_api_params g query hist tools)).message.content,
         [initial_api_params g query hist tools], none) := by
  unfold AIGenerator.generate_response
  cases hb : (g.oracle (initial_api_params g query hist tools)).finish_reason
      == "tool_calls" <;> rfl

/-- C1 (amended): with a non-empty tools list, a tool-call finish reason and a
provided manager, exactly two oracle calls happen — the first carrying the
tool definitions and automatic tool choice, the second with tools disabled;
the second call's messages extend the first's with the assistant tool-call
message and one id-tagged tool-result message per `"function"`-typed requested
call; the answer is the second response's content. -/
theorem c1_tool_round (g : AIGenerator) (query : String) (hist : Option String)
    (tools : Option (List ToolDef)) (tm : ToolManager)
    (htools : optToolsTruthy tools = true)
    (hfin : (g.oracle (initial_api_params g query hist tools)).finish_reason
      = "tool_calls") :
    let p₁ := initial_api_params g query hist tools
    let r₁ := g.oracle p₁
    let run := runToolCalls g tm r₁.message.tool_calls
    let p₂ : ApiParams :=
      { model := g.model, temperature := 0, max_tokens := 800,
        messages := p₁.messages
          ++ [ChatMessage.assistant r₁.message.content r₁.message.tool_calls]
          ++ run.1,
        tools := none, tool_choice := none }
    (g.generate_response query hist tools (some tm)).2.1 = [p₁, p₂] ∧
    p₁.tools = tools ∧
    p₁.tool_choice = some "auto" ∧
    (g.generate_response query hist tools (some tm)).1
      = (g.oracle p₂).message.content ∧
    List.Forall₂ (fun (msg : ChatMessage) (tc : ToolCall) =>
        ∃ c, msg = ChatMessage.tool c tc.id)
      run.1 (r₁.message.tool_calls.filter (fun tc => tc.type == "function")) := by
  intro p₁ r₁ run p₂
  have hb : ((g.oracle (initial_api_params g query hist
      tools)).finish_reason == "tool_calls") = true := beq_iff_eq.mpr hfin
  have hgen : g.generate_response query hist tools (some tm)
      = ((g.oracle p₂).message.content, [p₁, p₂], some run.2) := by
    unfold AIGenerator.generate_response
    simp only [hb]
    rfl
  refine ⟨?_, ?_, ?_, ?_, ?_⟩
  · rw [hgen]
  · show (if optToolsTruthy tools then tools else none) = tools
    rw [htools, if_pos rfl]
  · show (if optToolsTruthy tools then some "auto" else none) = some "auto"
    rw [htools, if_pos rfl]
  · rw [hgen]
  · exact runToolCalls_forall₂ g r₁.message.tool_calls tm

/-! ## Fixtures for the orchestrator claims -/

/-- A requested tool call whose type is not `"function"`. -/
def cxToolCall : ToolCall :=
  { id := "call_1", type := "custom",
    function := { name := "search_course_content", arguments := "" } }

/-- A fixture generator whose oracle requests the non-function tool call on
the first round (no assistant message yet) and answers plainly on the
second. -/
def cxg : AIGenerator :=
  { model := "gpt-4o",
    oracle := fun p =>
      if p.messages.any (fun m => match m with
          | ChatMessage.assistant _ _ => true
          | _ => false) then
        { finish_reason := "stop",
          message := { content := some "final answer", tool_calls := [] } }
      else
        { finish_reason := "tool_calls",
          message := { content := none, tool_calls := [cxToolCall] } },
    json_loads_args := fun _ => [] }

/-- Number of `tool`-role messages in a conversation. -/
def countToolMsgs : List ChatMessage → Nat
  | [] => 0
  | ChatMessage.tool _ _ :: rest => countToolMsgs rest + 1
  | _ :: rest => countToolMsgs rest

/-- Counterexample for C1 as stated: with no tools supplied but a manager
provided and a tool-call finish reason, the first oracle call carries no tool
definitions and no tool choice, and the single requested tool call (whose
type is `"custom"`) produces zero tool-result messages in the second call. -/
theorem c1_counterexample :
    ((cxg.generate_response "q" none none (some ⟨[]⟩)).2.1).length = 2 ∧
    ((cxg.generate_response "q" none none (some ⟨[]⟩)).2.1.getD 0
      default).tools = none ∧
    ((cxg.generate_response "q" none none (some ⟨[]⟩)).2.1.getD 0
      default).tool_choice = none ∧
    ((cxg.oracle ((cxg.generate_response "q" none none
      (some ⟨[]⟩)).2.1.getD 0 default)).message.tool_calls).length = 1 ∧
    countToolMsgs (((cxg.generate_response "q" none none
      (some ⟨[]⟩)).2.1.getD 1 default).messages) = 0 := by
  exact ⟨rfl, rfl, rfl, rfl, rfl⟩

/-- A function-typed requested tool call used by the C1 witness. -/
def wToolCall : ToolCall :=
  { id := "call_1", type := "function",
    function := { name := "search_course_content", arguments := "" } }

/-- A fixture generator whose oracle requests the function-typed tool call
whenever tools are enabled and answers plainly otherwise. -/
def wg : AIGenerator :=
  { model := "gpt-4o",
    oracle := fun p =>
      if p.tools.isSome then
        { finish_reason := "tool_calls",
          message := { content := none, tool_calls := [wToolCall] } }
      else
        { finish_reason := "stop",
          message := { content := some "final answer", tool_calls := [] } },
    json_loads_args := fun _ => [] }

/-- Witness for C1 (amended) at the fixture generator: both hypotheses hold
and the orchestration indeed makes exactly two oracle calls. -/
theorem c1_tool_round_witness :
    optToolsTruthy (some [sampleSearchDef]) = true ∧
    (wg.oracle (initial_api_params wg "q" none
      (some [sampleSearchDef]))).finish_reason = "tool_calls" ∧
    ((wg.generate_response "q" none (some [sampleSearchDef])
      (some ⟨[]⟩)).2.1).length = 2 := by
  have h := c1_tool_round wg "q" none (some [sampleSearchDef]) ⟨[]⟩ rfl rfl
  exact ⟨rfl, rfl, (congrArg (fun l => List.length l) h.1).trans rfl⟩

/-- Witness for C10 at the fixture generator: the first response's finish
reason is `tool_calls`, yet with no manager the call returns the first
response's (null) content after a single oracle call. -/
theorem c10_no_manager_direct_return_witness :
    (cxg.oracle (initial_api_params cxg "q" none none)).finish_reason
      = "tool_calls" ∧
    cxg.generate_response "q" none none none
      = ((cxg.oracle (initial_api_params cxg "q" none none)).message.content,
         [initial_api_params cxg "q" none none], none) :=
  ⟨rfl, c10_no_manager_direct_return cxg "q" none none rfl⟩

end RagChat
